import Mathlib

/-!
Shallow embedding of the anahit-backend news-ingestion core
(`news_config/models.py`, `news_config/tasks.py`, `news_config/api.py`)
together with proofs of the specification's claims about it.

Conventions of the embedding:
* A Python `str` is a Lean `String`; a nullable value is an `Option`.
* Python `str.split(sep)` and `str.strip()` are embedded as the structurally
  recursive functions `pySplit` and `pyStrip` below, which implement exactly
  the Python semantics (split on every separator occurrence, keeping empty
  segments; strip leading and trailing whitespace).
* A Python dict used as a keyword-parameter mapping is an association list
  `List (String × String)` in insertion order; `dictPop` is `dict.pop`.
* Django's object stores are explicit lists: the article table is a
  `List NewsArticle` and the configuration table a `List NewsSearchConfig`;
  `QuerySet.get` / `find first` is `List.find?`.
* A Python expression that can raise (`article_data["url"]` on a dict) lives
  in `Except String`; `dict.get(k)` is a plain `Option` field access.
* Timestamps are integers (seconds); `timedelta(days=d)` is `d * 86400`.
-/

namespace Anahit

/-- Python `str.strip()`: drop leading and trailing whitespace. -/
def pyStrip (s : String) : String :=
  String.mk (((s.toList.dropWhile Char.isWhitespace).reverse.dropWhile
    Char.isWhitespace).reverse)

/-- Helper for `pySplit`: split a character list on every occurrence of `sep`,
keeping empty segments (Python `str.split(sep)` semantics). -/
def pySplitAux (sep : Char) : List Char → List (List Char)
  | [] => [[]]
  | c :: cs =>
    let r := pySplitAux sep cs
    if c = sep then [] :: r
    else
      match r with
      | [] => [[c]]
      | h :: t => (c :: h) :: t

/-- Python `s.split(sep)` for a one-character separator. -/
def pySplit (s : String) (sep : Char) : List String :=
  (pySplitAux sep s.toList).map String.mk

/-- Python `dict.pop(k, None)`: remove the entry with key `k` (dict keys are
unique, but on association lists we drop every binding of `k`). -/
def dictPop (p : List (String × String)) (k : String) : List (String × String) :=
  p.filter (fun kv => kv.1 ≠ k)

/-- `NewsSearchConfig` (models.py lines 5–111): one saved news search.
`id` is the database primary key; `user` the owning user's id. `keywords`
and `sources` are `TextField(blank=True)`, hence plain (possibly empty)
strings; `last_executed` is nullable. -/
structure NewsSearchConfig where
  id : Nat
  user : Nat
  name : String
  keywords : String
  country : String
  category : String
  sources : String
  sort_by : String
  frequency : String
  is_active : Bool
  created_at : Int
  updated_at : Int
  last_executed : Option Int
deriving Repr, DecidableEq

/-- `NewsSearchConfig.get_sources_list` (models.py 86–92):
`[s.strip() for s in self.sources.split(",") if s.strip()] if self.sources else []`. -/
def get_sources_list (c : NewsSearchConfig) : List String :=
  if c.sources ≠ "" then
    ((pySplit c.sources ',').map pyStrip).filter (fun s => s ≠ "")
  else []

/-- `NewsSearchConfig.get_newsapi_params` (models.py 94–111): build the dict
{country, category, sortBy}, add `q` when keywords is truthy, and when
sources is truthy add the comma-joined source list and pop country/category. -/
def get_newsapi_params (c : NewsSearchConfig) : List (String × String) :=
  let params := [("country", c.country), ("category", c.category),
    ("sortBy", c.sort_by)]
  let params := if c.keywords ≠ "" then params ++ [("q", c.keywords)] else params
  if c.sources ≠ "" then
    dictPop (dictPop (params ++
      [("sources", String.intercalate "," (get_sources_list c))]) "country")
      "category"
  else params

/-- `NewsArticle` (models.py 114–156): one stored article row. `url` carries
the table's uniqueness constraint; `search_config` is the owning
configuration's id; `created_at` is `auto_now_add`. -/
structure NewsArticle where
  search_config : Nat
  title : String
  description : Option String
  url : String
  url_to_image : Option String
  published_at : String
  content : Option String
  source_id : Option String
  source_name : String
  author : Option String
  created_at : Int
  is_read : Bool
deriving Repr, DecidableEq

/-- The `source` object of a NewsAPI record: a dict whose `id` and `name`
keys may each be absent or null. A record's `source` field is
`Option SourceData`, where `none` stands for an absent or falsy
(`None` / empty-dict) source object, matching the truthiness test
`if article_data.get("source")`. -/
structure SourceData where
  id : Option String
  name : Option String
deriving Repr, DecidableEq

/-- One record of a NewsAPI response body. A `none` field is an absent (or
null) dict key: `d["k"]` on it raises `KeyError`, `d.get("k")` yields null. -/
structure ArticleData where
  source : Option SourceData
  author : Option String
  title : Option String
  description : Option String
  url : Option String
  urlToImage : Option String
  publishedAt : Option String
  content : Option String
deriving Repr, DecidableEq

/-- Python `d["k"]`: the value when present, `KeyError` otherwise. -/
def getItem (o : Option α) (k : String) : Except String α :=
  match o with
  | some v => Except.ok v
  | none => Except.error ("KeyError: " ++ k)

/-- `NewsArticle.create_from_newsapi` (models.py 161–181):
`get_or_create(url=article_data["url"], defaults={...})` against the article
store. All `defaults` values are evaluated first (so a missing required key
raises even for a duplicate URL); then, if an article with the URL exists it
is returned unchanged with `created = False`, else a new row is inserted.
Returns `(article, created, new store)`. -/
def create_from_newsapi (store : List NewsArticle) (article_data : ArticleData)
    (search_config : Nat) (now : Int) :
    Except String (NewsArticle × Bool × List NewsArticle) := do
  let url ← getItem article_data.url "url"
  let title ← getItem article_data.title "title"
  let publishedAt ← getItem article_data.publishedAt "publishedAt"
  let source_id : Option String :=
    match article_data.source with
    | some s => s.id
    | none => none
  let source_name ←
    match article_data.source with
    | some s => getItem s.name "name"
    | none => pure "Unknown"
  match store.find? (fun a => a.url == url) with
  | some existing => pure (existing, false, store)
  | none =>
    let a : NewsArticle :=
      { search_config := search_config
        title := title
        description := article_data.description
        url := url
        url_to_image := article_data.urlToImage
        published_at := publishedAt
        content := article_data.content
        source_id := source_id
        source_name := source_name
        author := article_data.author
        created_at := now
        is_read := false }
    pure (a, true, store ++ [a])

/-- A record holding every key `create_from_newsapi` accesses with `[...]`:
url, title, publishedAt present, and, when a source object is present, its
name present. Such records normalize without raising. -/
def wellFormed (d : ArticleData) : Bool :=
  d.url.isSome && d.title.isSome && d.publishedAt.isSome &&
    (match d.source with
     | some s => s.name.isSome
     | none => true)

/-- The database state the task operates on: the configuration table and the
article table. -/
structure DB where
  configs : List NewsSearchConfig
  articles : List NewsArticle
deriving Repr, DecidableEq

/-- Parsed JSON body of a NewsAPI response: `status` and `message` read with
`.get` (nullable), `articles` read with `.get("articles", [])`. -/
structure NewsApiResponse where
  status : Option String
  message : Option String
  articles : List ArticleData

/-- Outcome of the HTTP GET in tasks.py 46–51: either a
`requests.RequestException` (connection failure, timeout, or a non-2xx
status raised by `raise_for_status`), or a parsed JSON body. -/
inductive HttpOutcome where
  | netError
  | ok (data : NewsApiResponse)

/-- Result of one `fetch_news_for_config` invocation: the structured error
dict, the re-raised retry from the network-error handler, or the success
dict with its counters. -/
inductive FetchResult where
  | error (message : String)
  | retryNetwork
  | success (config_id : Nat) (config_name : String)
      (total_articles created_count duplicate_count : Nat)
deriving Repr, DecidableEq

/-- Python string truthiness of an optional value (`None` and `""` falsy). -/
def truthy (o : Option String) : Bool :=
  match o with
  | none => false
  | some s => s ≠ ""

/-- Python `a or b` on optional strings (tasks.py 34). -/
def pyOr (a b : Option String) : Option String :=
  if truthy a then a else b

/-- The per-record loop of tasks.py 65–77: fold `create_from_newsapi` over
the records, counting created and duplicate rows; a record whose
normalization raises is caught, logged and skipped (`continue`). Returns
`(created_count, duplicate_count, final store)`. -/
def processArticles (cfgId : Nat) (now : Int) (store : List NewsArticle) :
    List ArticleData → Nat × Nat × List NewsArticle
  | [] => (0, 0, store)
  | d :: rest =>
    match create_from_newsapi store d cfgId now with
    | Except.ok (_, created, store2) =>
      let r := processArticles cfgId now store2 rest
      if created then (r.1 + 1, r.2.1, r.2.2) else (r.1, r.2.1 + 1, r.2.2)
    | Except.error _ => processArticles cfgId now store rest

/-- `fetch_news_for_config` (tasks.py 13–102). Inputs beyond the task's own
arguments are made explicit: `settings_key` is `settings.NEWS_API_KEY`,
`http` the outcome of the provider call, `now` the clock. Returns the result
dict (or retry) together with the database state after the invocation. -/
def fetch_news_for_config (db : DB) (config_id : Nat)
    (news_api_key : Option String) (settings_key : Option String)
    (http : HttpOutcome) (now : Int) : FetchResult × DB :=
  match db.configs.find? (fun c => c.id == config_id && c.is_active) with
  | none => (FetchResult.error "Configuration not found or inactive", db)
  | some config =>
    let api_key := pyOr news_api_key settings_key
    if !truthy api_key then
      (FetchResult.error "No NewsAPI key configured", db)
    else
      match http with
      | HttpOutcome.netError => (FetchResult.retryNetwork, db)
      | HttpOutcome.ok data =>
        if data.status != some "ok" then
          (FetchResult.error
            ("NewsAPI error: " ++ data.message.getD "Unknown NewsAPI error"),
           db)
        else
          let pr := processArticles config.id now db.articles data.articles
          let configs := db.configs.map (fun c =>
            if c.id == config.id then { c with last_executed := some now }
            else c)
          (FetchResult.success config_id config.name data.articles.length
             pr.1 pr.2.1,
           { configs := configs, articles := pr.2.2 })

/-- Result dict of `cleanup_old_articles` (tasks.py 188–199). -/
structure CleanupResult where
  deleted_count : Nat
  cutoff_date : Int
  status : String
deriving Repr, DecidableEq

/-- `cleanup_old_articles` (tasks.py 159–203): compute the cutoff
`now - days_to_keep days`, delete every article with `created_at < cutoff`,
and report the count deleted and the cutoff. `days_to_keep` defaults to 30.
Returns the result dict and the remaining article table. -/
def cleanup_old_articles (articles : List NewsArticle) (now : Int)
    (days_to_keep : Nat := 30) : CleanupResult × List NewsArticle :=
  let cutoff_date : Int := now - days_to_keep * 86400
  let old_articles := articles.filter (fun a => a.created_at < cutoff_date)
  let count := old_articles.length
  if count > 0 then
    ({ deleted_count := count, cutoff_date := cutoff_date,
       status := "success" },
     articles.filter (fun a => ¬ a.created_at < cutoff_date))
  else
    ({ deleted_count := 0, cutoff_date := cutoff_date, status := "success" },
     articles)

/-- `create_articles_from_newsapi` (api.py 170–182): the bulk-create
endpoint's loop over the batch, calling `NewsArticle.create_from_newsapi`
per record with no per-record exception handling — a raising record aborts
the request, but rows already written stay written. Returns the response
(`ok` with the collected articles, or the propagated error) together with
the article store after the request. -/
def create_articles_from_newsapi (store : List NewsArticle)
    (search_config : Nat) (now : Int) :
    List ArticleData → Except String (List NewsArticle) × List NewsArticle
  | [] => (Except.ok [], store)
  | d :: rest =>
    match create_from_newsapi store d search_config now with
    | Except.error e => (Except.error e, store)
    | Except.ok (a, _, store2) =>
      match create_articles_from_newsapi store2 search_config now rest with
      | (Except.ok collected, store3) => (Except.ok (a :: collected), store3)
      | (Except.error e, store3) => (Except.error e, store3)

/-! ### Helper lemmas about the dictionary model -/

theorem lookup_dictPop_self (l : List (String × String)) (k : String) :
    (dictPop l k).lookup k = none := by
  induction l with
  | nil => rfl
  | cons kv t ih =>
    obtain ⟨a, b⟩ := kv
    by_cases h : a = k
    · simpa [dictPop, List.filter_cons, h] using ih
    · have hbeq : (k == a) = false := by
        simp only [beq_eq_false_iff_ne, ne_eq]
        exact fun hh => h hh.symm
      simpa [dictPop, List.filter_cons, h, List.lookup, hbeq] using ih

theorem lookup_dictPop_ne (l : List (String × String)) (k k' : String)
    (h : k ≠ k') : (dictPop l k').lookup k = l.lookup k := by
  induction l with
  | nil => rfl
  | cons kv t ih =>
    obtain ⟨a, b⟩ := kv
    by_cases ha : a = k'
    · subst ha
      have hbeq : (k == a) = false := by
        simp only [beq_eq_false_iff_ne, ne_eq]
        exact h
      simpa [dictPop, List.filter_cons, List.lookup, hbeq] using ih
    · by_cases hk : k = a
      · simp [dictPop, List.filter_cons, ha, List.lookup, hk]
      · have hbeq : (k == a) = false := by
          simp only [beq_eq_false_iff_ne, ne_eq]
          exact hk
        simpa [dictPop, List.filter_cons, ha, List.lookup, hbeq] using ih

/-! ### Claims about the Parameter Translator -/

/-- **C2.** Provider mutual exclusivity: whenever `sources` is non-empty the
translated parameters contain neither `country` nor `category`; whenever
`sources` is empty they contain both (with the configuration's values). -/
theorem C2_params_mutual_exclusivity (c : NewsSearchConfig) :
    (c.sources ≠ "" →
      (get_newsapi_params c).lookup "country" = none ∧
      (get_newsapi_params c).lookup "category" = none) ∧
    (c.sources = "" →
      (get_newsapi_params c).lookup "country" = some c.country ∧
      (get_newsapi_params c).lookup "category" = some c.category) := by
  constructor
  · intro h
    unfold get_newsapi_params
    simp only [h, if_true, ne_eq, not_false_iff]
    constructor
    · rw [lookup_dictPop_ne _ _ _ (by decide), lookup_dictPop_self]
    · rw [lookup_dictPop_self]
  · intro h
    unfold get_newsapi_params
    by_cases hk : c.keywords = "" <;>
      simp [h, hk, List.lookup]

/-- A configuration with non-empty sources, used to instantiate theorems at
a concrete input. -/
def someSourcesConfig : NewsSearchConfig :=
  { id := 1, user := 1, name := "n", keywords := "k", country := "us",
    category := "general", sources := "bbc-news,cnn",
    sort_by := "publishedAt", frequency := "daily", is_active := true,
    created_at := 0, updated_at := 0, last_executed := none }

/-- A configuration with empty sources, used to instantiate theorems at a
concrete input. -/
def emptySourcesConfig : NewsSearchConfig :=
  { someSourcesConfig with sources := "" }

/-- **C2 witness.** The theorem instantiated at two concrete
configurations, one with sources `"bbc-news,cnn"` and one with empty
sources. -/
theorem C2_params_mutual_exclusivity_witness :
    ((get_newsapi_params someSourcesConfig).lookup "country" = none ∧
      (get_newsapi_params someSourcesConfig).lookup "category" = none) ∧
    ((get_newsapi_params emptySourcesConfig).lookup "country" = some "us" ∧
      (get_newsapi_params emptySourcesConfig).lookup "category" =
        some "general") :=
  ⟨(C2_params_mutual_exclusivity someSourcesConfig).1 (by decide),
   (C2_params_mutual_exclusivity emptySourcesConfig).2 rfl⟩

/-- The configuration of the spec's first translator example:
`{country: "us", category: "technology", keywords: "ai"}`, all other fields
at their model defaults. -/
def exampleHeadlinesConfig : NewsSearchConfig :=
  { id := 1, user := 1, name := "example", keywords := "ai", country := "us",
    category := "technology", sources := "", sort_by := "publishedAt",
    frequency := "daily", is_active := true, created_at := 0, updated_at := 0,
    last_executed := none }

/-- The configuration of the spec's second translator example:
`{sources: "bbc-news,cnn", keywords: "breaking"}`, country and category at
their model defaults (`us` / `general`). -/
def exampleSourcesConfig : NewsSearchConfig :=
  { id := 2, user := 1, name := "example2", keywords := "breaking",
    country := "us", category := "general", sources := "bbc-news,cnn",
    sort_by := "publishedAt", frequency := "daily", is_active := true,
    created_at := 0, updated_at := 0, last_executed := none }

/-- **C7.** The translator reproduces the spec's example outputs exactly:
the headlines example yields `{country, category, sortBy, q}` and the
sources example yields `{sortBy, q, sources}` with no country or category
key. -/
theorem C7_example_translations :
    get_newsapi_params exampleHeadlinesConfig =
      [("country", "us"), ("category", "technology"),
       ("sortBy", "publishedAt"), ("q", "ai")] ∧
    get_newsapi_params exampleSourcesConfig =
      [("sortBy", "publishedAt"), ("q", "breaking"),
       ("sources", "bbc-news,cnn")] ∧
    (get_newsapi_params exampleSourcesConfig).lookup "country" = none ∧
    (get_newsapi_params exampleSourcesConfig).lookup "category" = none := by
  decide

/-- **C10.** The translator's non-emptiness test is raw-string truthiness,
not non-emptiness of the parsed list: for a configuration whose sources
string is non-empty but consists only of commas and whitespace (rendered as
"every comma-separated segment strips to the empty string"), the translated
parameters drop `country` and `category` yet map `sources` to the empty
string, the comma-join of zero trimmed non-empty segments. -/
theorem C10_truthiness_whitespace_sources (c : NewsSearchConfig)
    (hne : c.sources ≠ "")
    (hws : (pySplit c.sources ',').all (fun seg => pyStrip seg == "") = true) :
    (get_newsapi_params c).lookup "country" = none ∧
    (get_newsapi_params c).lookup "category" = none ∧
    (get_newsapi_params c).lookup "sources" = some "" := by
  have hlist : get_sources_list c = [] := by
    unfold get_sources_list
    rw [if_pos hne, List.filter_eq_nil_iff]
    intro a ha
    rw [List.mem_map] at ha
    obtain ⟨seg, hseg, rfl⟩ := ha
    rw [List.all_eq_true] at hws
    have hseg0 := hws seg hseg
    simp only [beq_iff_eq] at hseg0
    simp [hseg0]
  unfold get_newsapi_params
  rw [if_pos hne]
  simp only [hlist]
  refine ⟨?_, ?_, ?_⟩
  · rw [lookup_dictPop_ne _ _ _ (by decide), lookup_dictPop_self]
  · rw [lookup_dictPop_self]
  · rw [lookup_dictPop_ne _ _ _ (by decide),
      lookup_dictPop_ne _ _ _ (by decide)]
    by_cases hk : c.keywords = "" <;> simp [hk, List.lookup] <;> rfl

/-- A configuration whose sources string is non-empty but holds only a comma
between blanks, used to instantiate C10 at a concrete input. -/
def whitespaceSourcesConfig : NewsSearchConfig :=
  { someSourcesConfig with sources := " , " }

/-- **C10 witness.** The theorem instantiated at a configuration with
sources `" , "`. -/
theorem C10_truthiness_whitespace_sources_witness :
    (get_newsapi_params whitespaceSourcesConfig).lookup "country" = none ∧
    (get_newsapi_params whitespaceSourcesConfig).lookup "category" = none ∧
    (get_newsapi_params whitespaceSourcesConfig).lookup "sources" = some "" :=
  C10_truthiness_whitespace_sources whitespaceSourcesConfig (by decide)
    (by decide)

/-! ### Helper lemmas about article normalization (`create_from_newsapi`) -/

theorem bindOk (a : α) (f : α → Except ε β) :
    (Except.ok a >>= f : Except ε β) = f a := rfl

theorem pureOk (a : α) : (pure a : Except ε α) = Except.ok a := rfl

/-- Duplicate case of `get_or_create`: when an article with the record's URL
is already stored and the record normalizes, the existing row is returned
with `created = false` and the store is unchanged. -/
theorem create_from_newsapi_duplicate (store : List NewsArticle)
    (d : ArticleData) (cfg : Nat) (now : Int) (u : String) (e : NewsArticle)
    (hu : d.url = some u) (hwf : wellFormed d = true)
    (hfind : store.find? (fun a => a.url == u) = some e) :
    create_from_newsapi store d cfg now = Except.ok (e, false, store) := by
  simp only [wellFormed, Bool.and_eq_true, Option.isSome_iff_exists] at hwf
  obtain ⟨⟨⟨⟨_, hu2⟩, t, ht⟩, p, hp⟩, hsrc⟩ := hwf
  cases hs : d.source with
  | none =>
    simp [create_from_newsapi, getItem, hu, ht, hp, hs, bindOk, pureOk, hfind]
  | some s =>
    rw [hs] at hsrc
    obtain ⟨n, hn⟩ := Option.isSome_iff_exists.mp hsrc
    simp [create_from_newsapi, getItem, hu, ht, hp, hs, hn, bindOk, pureOk,
      hfind]

/-- Creation case of `get_or_create` for a record with no source object:
a new row is appended whose source name is the literal `"Unknown"` and whose
source id is null; every other field is taken from the record. -/
theorem create_from_newsapi_new_noSource (store : List NewsArticle)
    (d : ArticleData) (cfg : Nat) (now : Int) (u t p : String)
    (hu : d.url = some u) (ht : d.title = some t)
    (hp : d.publishedAt = some p) (hs : d.source = none)
    (hfind : store.find? (fun a => a.url == u) = none) :
    create_from_newsapi store d cfg now =
      Except.ok
        ({ search_config := cfg, title := t, description := d.description,
           url := u, url_to_image := d.urlToImage, published_at := p,
           content := d.content, source_id := none, source_name := "Unknown",
           author := d.author, created_at := now, is_read := false },
         true,
         store ++
           [{ search_config := cfg, title := t, description := d.description,
              url := u, url_to_image := d.urlToImage, published_at := p,
              content := d.content, source_id := none,
              source_name := "Unknown", author := d.author,
              created_at := now, is_read := false }]) := by
  simp [create_from_newsapi, getItem, hu, ht, hp, hs, bindOk, pureOk, hfind]

/-- Creation case of `get_or_create` for a record with a source object: the
new row takes the source's id (possibly null) and name verbatim. -/
theorem create_from_newsapi_new_source (store : List NewsArticle)
    (d : ArticleData) (s : SourceData) (cfg : Nat) (now : Int)
    (u t p n : String) (hu : d.url = some u) (ht : d.title = some t)
    (hp : d.publishedAt = some p) (hs : d.source = some s)
    (hn : s.name = some n)
    (hfind : store.find? (fun a => a.url == u) = none) :
    create_from_newsapi store d cfg now =
      Except.ok
        ({ search_config := cfg, title := t, description := d.description,
           url := u, url_to_image := d.urlToImage, published_at := p,
           content := d.content, source_id := s.id, source_name := n,
           author := d.author, created_at := now, is_read := false },
         true,
         store ++
           [{ search_config := cfg, title := t, description := d.description,
              url := u, url_to_image := d.urlToImage, published_at := p,
              content := d.content, source_id := s.id, source_name := n,
              author := d.author, created_at := now, is_read := false }]) := by
  simp [create_from_newsapi, getItem, hu, ht, hp, hs, hn, bindOk, pureOk,
    hfind]

/-- Creation case of `get_or_create`, source object abstracted away: a
well-formed record whose URL is not yet stored creates exactly one new row,
appended to the store, owned by the ingesting configuration. -/
theorem create_from_newsapi_new (store : List NewsArticle) (d : ArticleData)
    (cfg : Nat) (now : Int) (u : String) (hu : d.url = some u)
    (hwf : wellFormed d = true)
    (hfind : store.find? (fun a => a.url == u) = none) :
    ∃ a : NewsArticle,
      create_from_newsapi store d cfg now = Except.ok (a, true, store ++ [a]) ∧
      a.url = u ∧ a.search_config = cfg ∧ a.created_at = now := by
  simp only [wellFormed, Bool.and_eq_true, Option.isSome_iff_exists] at hwf
  obtain ⟨⟨⟨⟨_, _⟩, t, ht⟩, p, hp⟩, hsrc⟩ := hwf
  cases hs : d.source with
  | none =>
    exact ⟨_, create_from_newsapi_new_noSource store d cfg now u t p hu ht hp
      hs hfind, rfl, rfl, rfl⟩
  | some s =>
    rw [hs] at hsrc
    obtain ⟨n, hn⟩ := Option.isSome_iff_exists.mp hsrc
    exact ⟨_, create_from_newsapi_new_source store d s cfg now u t p n hu ht
      hp hs hn hfind, rfl, rfl, rfl⟩

/-! ### Claims about URL deduplication and normalization -/

/-- **C1.** The article URL is a globally unique dedup key. For a
well-formed provider record with URL `u`: if some stored article already
has URL `u` then ingesting the record — under any configuration `cfgB` and
at any time — returns the existing row, writes nothing (the store is
unchanged, so no field is updated and no reassignment happens), and the
record loop counts it as a duplicate; if `u` is not yet stored, a first
ingestion under `cfgA` stores exactly one article (owned by `cfgA`) and a
second ingestion of the same record, under any configuration, stores
nothing and counts a duplicate of 1. -/
theorem C1_url_global_dedup (store : List NewsArticle) (d : ArticleData)
    (cfgA cfgB : Nat) (nowA nowB : Int) (u : String)
    (hu : d.url = some u) (hwf : wellFormed d = true) :
    (∀ e, store.find? (fun a => a.url == u) = some e →
      create_from_newsapi store d cfgB nowB = Except.ok (e, false, store) ∧
      processArticles cfgB nowB store [d] = (0, 1, store)) ∧
    (store.find? (fun a => a.url == u) = none →
      ∃ a : NewsArticle, a.url = u ∧ a.search_config = cfgA ∧
        processArticles cfgA nowA store [d] = (1, 0, store ++ [a]) ∧
        processArticles cfgB nowB (store ++ [a]) [d] =
          (0, 1, store ++ [a])) := by
  constructor
  · intro e hfind
    have hc := create_from_newsapi_duplicate store d cfgB nowB u e hu hwf hfind
    exact ⟨hc, by simp [processArticles, hc]⟩
  · intro hfind
    obtain ⟨a, hcreate, hurl, hcfg, -⟩ :=
      create_from_newsapi_new store d cfgA nowA u hu hwf hfind
    have hfind2 : (store ++ [a]).find? (fun x => x.url == u) = some a := by
      rw [List.find?_append, hfind]
      simp [List.find?_cons, hurl]
    have hdup := create_from_newsapi_duplicate (store ++ [a]) d cfgB nowB u a
      hu hwf hfind2
    exact ⟨a, hurl, hcfg, by simp [processArticles, hcreate],
      by simp [processArticles, hdup]⟩

/-- A provider record with a full source object, used to instantiate
theorems at a concrete input. -/
def sampleSource : SourceData :=
  { id := some "bbc-news", name := some "BBC News" }

/-- A well-formed provider record carrying `sampleSource`. -/
def sampleRecord : ArticleData :=
  { source := some sampleSource, author := some "A. Writer",
    title := some "Sample", description := some "d",
    url := some "https://example.com/a", urlToImage := none,
    publishedAt := some "2024-01-01T00:00:00Z", content := none }

/-- `sampleRecord` with the source object absent and a fresh URL. -/
def sampleRecordNoSource : ArticleData :=
  { sampleRecord with source := none, url := some "https://example.com/b" }

/-- A stored article row with `sampleRecord`'s URL, owned by
configuration 3. -/
def storedSample : NewsArticle :=
  { search_config := 3, title := "Sample", description := some "d",
    url := "https://example.com/a", url_to_image := none,
    published_at := "2024-01-01T00:00:00Z", content := none,
    source_id := some "bbc-news", source_name := "BBC News",
    author := some "A. Writer", created_at := 0, is_read := false }

/-- **C1 witness.** The duplicate half of the theorem at a concrete store
already holding the record's URL (under a different configuration): the
existing row is returned, the store is unchanged and the duplicate count
is 1. -/
theorem C1_url_global_dedup_witness :
    create_from_newsapi [storedSample] sampleRecord 9 5 =
      Except.ok (storedSample, false, [storedSample]) ∧
    processArticles 9 5 [storedSample] [sampleRecord] =
      (0, 1, [storedSample]) :=
  (C1_url_global_dedup [storedSample] sampleRecord 4 9 0 5
    "https://example.com/a" rfl (by decide)).1 storedSample (by decide)

/-- **C6.** Source normalization: a record lacking a source object is
stored with source name exactly `"Unknown"` and null source id; a record
with a source object is stored with the object's id (possibly null) and
name verbatim. All other fields pass through from the record in both
cases. -/
theorem C6_source_fallback (store : List NewsArticle) (d : ArticleData)
    (cfg : Nat) (now : Int) (u t p : String)
    (hu : d.url = some u) (ht : d.title = some t)
    (hp : d.publishedAt = some p)
    (hfind : store.find? (fun a => a.url == u) = none) :
    (d.source = none →
      create_from_newsapi store d cfg now =
        Except.ok
          ({ search_config := cfg, title := t, description := d.description,
             url := u, url_to_image := d.urlToImage, published_at := p,
             content := d.content, source_id := none,
             source_name := "Unknown", author := d.author,
             created_at := now, is_read := false },
           true,
           store ++
             [{ search_config := cfg, title := t,
                description := d.description, url := u,
                url_to_image := d.urlToImage, published_at := p,
                content := d.content, source_id := none,
                source_name := "Unknown", author := d.author,
                created_at := now, is_read := false }])) ∧
    (∀ s n, d.source = some s → s.name = some n →
      create_from_newsapi store d cfg now =
        Except.ok
          ({ search_config := cfg, title := t, description := d.description,
             url := u, url_to_image := d.urlToImage, published_at := p,
             content := d.content, source_id := s.id, source_name := n,
             author := d.author, created_at := now, is_read := false },
           true,
           store ++
             [{ search_config := cfg, title := t,
                description := d.description, url := u,
                url_to_image := d.urlToImage, published_at := p,
                content := d.content, source_id := s.id, source_name := n,
                author := d.author, created_at := now,
                is_read := false }])) := by
  constructor
  · intro hs
    exact create_from_newsapi_new_noSource store d cfg now u t p hu ht hp hs
      hfind
  · intro s n hs hn
    exact create_from_newsapi_new_source store d s cfg now u t p n hu ht hp hs
      hn hfind

/-- **C6 witness.** The theorem at two concrete records, one without and
one with a source object, ingested into an empty store. -/
theorem C6_source_fallback_witness :
    create_from_newsapi [] sampleRecordNoSource 1 0 =
      Except.ok
        ({ search_config := 1, title := "Sample", description := some "d",
           url := "https://example.com/b", url_to_image := none,
           published_at := "2024-01-01T00:00:00Z", content := none,
           source_id := none, source_name := "Unknown",
           author := some "A. Writer", created_at := 0, is_read := false },
         true,
         [{ search_config := 1, title := "Sample", description := some "d",
            url := "https://example.com/b", url_to_image := none,
            published_at := "2024-01-01T00:00:00Z", content := none,
            source_id := none, source_name := "Unknown",
            author := some "A. Writer", created_at := 0,
            is_read := false }]) ∧
    create_from_newsapi [] sampleRecord 1 0 =
      Except.ok
        ({ search_config := 1, title := "Sample", description := some "d",
           url := "https://example.com/a", url_to_image := none,
           published_at := "2024-01-01T00:00:00Z", content := none,
           source_id := some "bbc-news", source_name := "BBC News",
           author := some "A. Writer", created_at := 0, is_read := false },
         true,
         [{ search_config := 1, title := "Sample", description := some "d",
            url := "https://example.com/a", url_to_image := none,
            published_at := "2024-01-01T00:00:00Z", content := none,
            source_id := some "bbc-news", source_name := "BBC News",
            author := some "A. Writer", created_at := 0,
            is_read := false }]) :=
  ⟨(C6_source_fallback [] sampleRecordNoSource 1 0 "https://example.com/b"
      "Sample" "2024-01-01T00:00:00Z" rfl rfl rfl rfl).1 rfl,
   (C6_source_fallback [] sampleRecord 1 0 "https://example.com/a"
      "Sample" "2024-01-01T00:00:00Z" rfl rfl rfl rfl).2 sampleSource
      "BBC News" rfl rfl⟩

/-! ### Claims about the ingestion pipeline task -/

/-- **C3.** For every invocation whose configuration id matches no stored
configuration, or only configurations whose active flag is false, the task
returns the structured "Configuration not found or inactive" error result —
the `error` constructor, not the network-retry path and not an exception —
and the database (both the article store and the configuration store, so in
particular every `last_executed` field) is returned unchanged. -/
theorem C3_unavailable_no_writes (db : DB) (config_id : Nat)
    (k sk : Option String) (http : HttpOutcome) (now : Int)
    (h : ∀ c ∈ db.configs, c.id = config_id → c.is_active = false) :
    fetch_news_for_config db config_id k sk http now =
      (FetchResult.error "Configuration not found or inactive", db) := by
  have hf : db.configs.find? (fun c => c.id == config_id && c.is_active) =
      none := by
    rw [List.find?_eq_none]
    intro c hc
    simp only [Bool.and_eq_true, beq_iff_eq, not_and]
    intro h1
    rw [h c hc h1]
    simp
  unfold fetch_news_for_config
  rw [hf]

/-- A stored configuration that is active, used to instantiate theorems at
a concrete input. -/
def activeConfig : NewsSearchConfig :=
  { id := 1, user := 1, name := "active", keywords := "", country := "us",
    category := "general", sources := "", sort_by := "publishedAt",
    frequency := "daily", is_active := true, created_at := 0,
    updated_at := 0, last_executed := none }

/-- A stored configuration with the active flag off. -/
def inactiveConfig : NewsSearchConfig :=
  { activeConfig with
    id := 5
    name := "inactive"
    is_active := false }

/-- A database holding one inactive and one active configuration and no
articles. -/
def sampleDB : DB :=
  { configs := [inactiveConfig, activeConfig], articles := [] }

/-- A provider record whose `url` key is missing: normalizing it raises
`KeyError`. -/
def badRecord : ArticleData := { sampleRecord with url := none }

/-- A successful provider response whose batch contains one good and one
malformed record. -/
def okResponse : NewsApiResponse :=
  { status := some "ok", message := none,
    articles := [sampleRecord, badRecord] }

/-- A provider response reporting a non-success status with a message. -/
def errResponse : NewsApiResponse :=
  { status := some "error", message := some "boom",
    articles := [sampleRecord] }

/-- **C3 witness.** The theorem at a concrete database, once with the id of
an inactive configuration and once with an id that matches nothing. -/
theorem C3_unavailable_no_writes_witness :
    fetch_news_for_config sampleDB 5 (some "key") none
        (HttpOutcome.ok okResponse) 0 =
      (FetchResult.error "Configuration not found or inactive", sampleDB) ∧
    fetch_news_for_config sampleDB 7 (some "key") none
        (HttpOutcome.ok okResponse) 0 =
      (FetchResult.error "Configuration not found or inactive", sampleDB) :=
  ⟨C3_unavailable_no_writes sampleDB 5 (some "key") none
      (HttpOutcome.ok okResponse) 0 (by decide),
   C3_unavailable_no_writes sampleDB 7 (some "key") none
      (HttpOutcome.ok okResponse) 0 (by decide)⟩

/-- **C4.** When the provider responds but reports a non-success status,
the task stops: it returns the `error` result carrying the provider's
message (so the scheduler does not retry — only the `retryNetwork` outcome
re-raises) and the database is returned unchanged: no article is stored and
no configuration field, in particular `last_executed`, is touched. -/
theorem C4_provider_error_no_writes (db : DB) (config_id : Nat)
    (k sk : Option String) (data : NewsApiResponse) (now : Int)
    (config : NewsSearchConfig)
    (hc : db.configs.find? (fun c => c.id == config_id && c.is_active) =
      some config)
    (hk : truthy (pyOr k sk) = true)
    (hs : data.status ≠ some "ok") :
    fetch_news_for_config db config_id k sk (HttpOutcome.ok data) now =
      (FetchResult.error
        ("NewsAPI error: " ++ data.message.getD "Unknown NewsAPI error"),
       db) := by
  have hbne : (data.status != some "ok") = true := by
    simp [bne_iff_ne, hs]
  unfold fetch_news_for_config
  rw [hc]
  simp [hk, hbne]

/-- **C4 witness.** The theorem at a concrete database and a provider
response with status `"error"` and message `"boom"`. -/
theorem C4_provider_error_no_writes_witness :
    fetch_news_for_config sampleDB 1 (some "key") none
        (HttpOutcome.ok errResponse) 0 =
      (FetchResult.error "NewsAPI error: boom", sampleDB) :=
  C4_provider_error_no_writes sampleDB 1 (some "key") none errResponse 0
    activeConfig (by decide) (by decide) (by decide)

/-- **C5.** On any successful provider response the task, after the record
loop, sets the matched configuration's `last_executed` to the current time
and persists only that field: the resulting configuration table is the old
one with exactly that one field of that one row replaced (`{c with
last_executed := some now}` keeps every other field, and rows with other
ids are untouched); the article table is exactly the record loop's output;
and the invocation returns a `success` result whatever the records contain
— because a record whose normalization raises is caught and skipped, as the
last conjunct states for an arbitrary failing record. -/
theorem C5_last_executed_frame (db : DB) (config_id : Nat)
    (k sk : Option String) (data : NewsApiResponse) (now : Int)
    (config : NewsSearchConfig) (store0 : List NewsArticle)
    (d0 : ArticleData) (rest0 : List ArticleData) (e0 : String)
    (hc : db.configs.find? (fun c => c.id == config_id && c.is_active) =
      some config)
    (hk : truthy (pyOr k sk) = true)
    (hs : data.status = some "ok")
    (he : create_from_newsapi store0 d0 config.id now = Except.error e0) :
    (fetch_news_for_config db config_id k sk (HttpOutcome.ok data)
        now).2.configs =
      db.configs.map (fun c =>
        if c.id == config.id then { c with last_executed := some now }
        else c) ∧
    (fetch_news_for_config db config_id k sk (HttpOutcome.ok data)
        now).2.articles =
      (processArticles config.id now db.articles data.articles).2.2 ∧
    (fetch_news_for_config db config_id k sk (HttpOutcome.ok data) now).1 =
      FetchResult.success config_id config.name data.articles.length
        (processArticles config.id now db.articles data.articles).1
        (processArticles config.id now db.articles data.articles).2.1 ∧
    processArticles config.id now store0 (d0 :: rest0) =
      processArticles config.id now store0 rest0 := by
  have hbne : (data.status != some "ok") = false := by
    simp [bne, hs]
  unfold fetch_news_for_config
  rw [hc]
  simp only [hk, Bool.not_true, Bool.false_eq_true, if_false, hbne]
  refine ⟨?_, ?_, ?_, ?_⟩ <;>
    first
      | trivial
      | simp [processArticles, he]

/-- **C5 witness.** The theorem at a concrete database and a successful
response whose batch holds one good record and one record missing its
`url` key. -/
theorem C5_last_executed_frame_witness :
    (fetch_news_for_config sampleDB 1 (some "key") none
        (HttpOutcome.ok okResponse) 7).2.configs =
      sampleDB.configs.map (fun c =>
        if c.id == activeConfig.id then { c with last_executed := some 7 }
        else c) ∧
    (fetch_news_for_config sampleDB 1 (some "key") none
        (HttpOutcome.ok okResponse) 7).2.articles =
      (processArticles activeConfig.id 7 sampleDB.articles
        okResponse.articles).2.2 ∧
    (fetch_news_for_config sampleDB 1 (some "key") none
        (HttpOutcome.ok okResponse) 7).1 =
      FetchResult.success 1 activeConfig.name okResponse.articles.length
        (processArticles activeConfig.id 7 sampleDB.articles
          okResponse.articles).1
        (processArticles activeConfig.id 7 sampleDB.articles
          okResponse.articles).2.1 ∧
    processArticles activeConfig.id 7 [] (badRecord :: []) =
      processArticles activeConfig.id 7 [] [] :=
  C5_last_executed_frame sampleDB 1 (some "key") none okResponse 7
    activeConfig [] badRecord [] "KeyError: url" (by decide) (by decide) rfl
    rfl

/-! ### Claims about the retention sweep and the bulk-create endpoint -/

/-- **C8.** The retention sweep with an `N`-day window deletes exactly the
articles whose creation timestamp is strictly older than now minus `N`
days: the remaining table is the filter keeping everything not strictly
older (so every newer article is untouched), the reported deleted count is
the number of strictly-older articles, the reported cutoff is
`now - N * 86400`, and the window defaults to 30 days. -/
theorem C8_retention_sweep (articles : List NewsArticle) (now : Int)
    (days_to_keep : Nat) :
    (cleanup_old_articles articles now days_to_keep).2 =
      articles.filter
        (fun a => ¬ a.created_at < now - days_to_keep * 86400) ∧
    (cleanup_old_articles articles now days_to_keep).1.deleted_count =
      (articles.filter
        (fun a => a.created_at < now - days_to_keep * 86400)).length ∧
    (cleanup_old_articles articles now days_to_keep).1.cutoff_date =
      now - days_to_keep * 86400 ∧
    cleanup_old_articles articles now =
      cleanup_old_articles articles now 30 := by
  unfold cleanup_old_articles
  by_cases h :
      (articles.filter
        (fun a => a.created_at < now - (days_to_keep : Int) * 86400)).length
        > 0
  · simp only [h, if_pos, if_true]
    refine ⟨?_, ?_, ?_, ?_⟩ <;> trivial
  · simp only [h, if_neg, if_false, not_false_iff]
    have h0 : articles.filter
        (fun a => a.created_at < now - (days_to_keep : Int) * 86400) =
        [] := by
      rcases hf : articles.filter
        (fun a => a.created_at < now - (days_to_keep : Int) * 86400) with
        _ | ⟨x, xs⟩
      · exact hf
      · rw [hf] at h
        simp at h
    have hall : ∀ a ∈ articles,
        ¬ a.created_at < now - (days_to_keep : Int) * 86400 := by
      intro a ha
      have := List.filter_eq_nil_iff.mp h0 a ha
      simpa using this
    have hself : articles.filter
        (fun a => ¬ a.created_at < now - (days_to_keep : Int) * 86400) =
        articles := by
      rw [List.filter_eq_self]
      intro a ha
      simpa using hall a ha
    refine ⟨?_, ?_, ?_, ?_⟩ <;>
      first
        | trivial
        | exact hself.symm
        | (rw [h0]; rfl)

/-- A well-formed record (URL, title, publish time present; a present
source object has a name) normalizes without raising: `get_or_create`
returns `ok`, whether or not the URL is already stored. -/
theorem create_from_newsapi_ok_of_wellFormed (store : List NewsArticle)
    (d : ArticleData) (cfg : Nat) (now : Int) (hwf : wellFormed d = true) :
    ∃ acs, create_from_newsapi store d cfg now = Except.ok acs := by
  have hu : ∃ u, d.url = some u := by
    simp only [wellFormed, Bool.and_eq_true, Option.isSome_iff_exists] at hwf
    exact hwf.1.1.1
  obtain ⟨u, hu⟩ := hu
  cases hfind : store.find? (fun a => a.url == u) with
  | some e =>
    exact ⟨_, create_from_newsapi_duplicate store d cfg now u e hu hwf hfind⟩
  | none =>
    obtain ⟨a, h, -⟩ := create_from_newsapi_new store d cfg now u hu hwf hfind
    exact ⟨_, h⟩

/-- **C9.** The bulk-create endpoint and the pipeline's record loop are
equivalent on the article store: for every batch of provider-shaped
(well-formed) records, every configuration and every starting store, both
paths — each delegating record by record to the same
`create_from_newsapi` create-or-get-by-URL operation — leave the article
store in the identical state. -/
theorem C9_bulk_create_refines_pipeline (store : List NewsArticle)
    (cfg : Nat) (now : Int) (batch : List ArticleData)
    (hwf : ∀ d ∈ batch, wellFormed d = true) :
    (create_articles_from_newsapi store cfg now batch).2 =
      (processArticles cfg now store batch).2.2 := by
  induction batch generalizing store with
  | nil => rfl
  | cons d rest ih =>
    obtain ⟨⟨a, created, store2⟩, hok⟩ :=
      create_from_newsapi_ok_of_wellFormed store d cfg now
        (hwf d (List.mem_cons_self d rest))
    have ih2 := ih store2 (fun x hx => hwf x (List.mem_cons_of_mem d hx))
    simp only [create_articles_from_newsapi, processArticles, hok]
    rcases hr : create_articles_from_newsapi store2 cfg now rest with ⟨r, s3⟩
    rw [hr] at ih2
    cases r <;> cases created <;> simp_all

/-- **C9 witness.** The theorem at a concrete batch containing a source-ful
record, a source-less record and an in-batch duplicate, against an empty
store. -/
theorem C9_bulk_create_refines_pipeline_witness :
    (create_articles_from_newsapi [] 4 3
      [sampleRecord, sampleRecordNoSource, sampleRecord]).2 =
      (processArticles 4 3 []
        [sampleRecord, sampleRecordNoSource, sampleRecord]).2.2 :=
  C9_bulk_create_refines_pipeline [] 4 3
    [sampleRecord, sampleRecordNoSource, sampleRecord] (by decide)

end Anahit
